import Mathlib

/-!
Verification of the github-trends-bq backend against its specification.

The definitions below are a shallow embedding of the TypeScript sources:
* `src/bigquery/schemas/BaseBigQueryPlanBuilder.ts` (plan compiler),
* `src/services/LLMService.ts` (plan validator),
* `src/controllers/utils.ts` (SHA-256 fingerprints),
* `src/services/ErrorUtils.ts`, `src/services/JobService.ts` (job status,
  failure sanitisation),
* `src/services/SSEService.ts` (push-channel registry),
* `src/services/QuestionsService.ts` (job scheduling and the question job
  handler with its fingerprint caches).

JavaScript values that flow through the compiler are modelled by `Trends.JsVal`;
JavaScript truthiness checks of the source are modelled explicitly at each site.
-/

namespace Trends

/-- Model of the JavaScript values that can appear as a filter `value`:
strings, numbers (modelled as integers), booleans, `null`, `{ var: name }`
variable references, and arrays. -/
inductive JsVal where
  | vstr (s : String)
  | vnum (n : Int)
  | vbool (b : Bool)
  | vnull
  | varRef (name : String)
  | varr (elems : List JsVal)
deriving Repr, BEq

/-- `true` exactly when `Array.isArray(value)` is true in the source. -/
def JsVal.isArray : JsVal → Bool
  | .varr _ => true
  | _ => false

mutual
/-- JavaScript `String(value)` coercion as used by template-literal
interpolation for non-string, non-variable-reference values. -/
def jsToString : JsVal → String
  | .vstr s => s
  | .vnum n => toString n
  | .vbool b => if b then "true" else "false"
  | .vnull => "null"
  | .varRef _ => "[object Object]"
  | .varr es => String.intercalate "," (jsToStringList es)

/-- `String` coercion mapped over the elements of an array. -/
def jsToStringList : List JsVal → List String
  | [] => []
  | v :: vs => jsToString v :: jsToStringList vs
end

/-- `formatValue` of `BaseBigQueryPlanBuilder`: variable references render
their name unquoted; strings are single-quoted with internal quotes doubled;
arrays render as a parenthesised comma list; anything else is coerced. -/
def formatValue (value : JsVal) : String :=
  match value with
  | .varRef v => v
  | .vstr s => "'" ++ s.replace "'" "''" ++ "'"
  | .varr vs =>
      "(" ++ String.intercalate ", " (vs.map fun v =>
        match v with
        | .varRef w => w
        | .vstr s => "'" ++ s.replace "'" "''" ++ "'"
        | other => jsToString other) ++ ")"
  | other => jsToString other

/-- `formatExpressionValue` of `BaseBigQueryPlanBuilder`. -/
def formatExpressionValue (value : JsVal) : String :=
  match value with
  | .varRef v => v
  | other => formatValue other

/-- The `'AND' | 'OR'` literal union of `FilterGroup.logic`. -/
inductive Logic where
  | AND
  | OR
deriving Repr, DecidableEq

/-- Rendering of the logic literal. -/
def Logic.render : Logic → String
  | .AND => "AND"
  | .OR => "OR"

/-- The `Filter | FilterGroup` union: a leaf comparison filter or a logical
group of filters. -/
inductive FilterNode where
  | leaf (column : String) (op : String) (value : JsVal)
  | group (logic : Logic) (filters : List FilterNode)
deriving Repr, BEq

/-- `allowedOperators` of `GitHubArchivePlanBuilder`. -/
def allowedOperators : List String :=
  ["=", "!=", ">", "<", ">=", "<=", "IN", "BETWEEN"]

mutual
/-- `buildClause` inside `buildFilterClause`: renders one filter node, or
fails as the source throws. -/
def buildClause : FilterNode → Except String String
  | .group logic fs => do
      let parts ← buildClauseList fs
      pure ("(" ++ String.intercalate (" " ++ logic.render ++ " ") parts ++ ")")
  | .leaf column op value =>
      if !(allowedOperators.contains op) then
        Except.error ("Operator not allowed: " ++ op)
      else if op = "BETWEEN" then
        match value with
        | .varr [l, r] =>
            Except.ok (column ++ " BETWEEN " ++ formatExpressionValue l ++
              " AND " ++ formatExpressionValue r)
        | _ => Except.error "BETWEEN operator requires an array value of length 2"
      else if op == "IN" && !value.isArray then
        Except.error "IN operator requires array value"
      else
        Except.ok (column ++ " " ++ op ++ " " ++ formatValue value)

/-- `filters.map(buildClause)` with exception propagation. -/
def buildClauseList : List FilterNode → Except String (List String)
  | [] => Except.ok []
  | f :: fs => do
      let r ← buildClause f
      let rs ← buildClauseList fs
      pure (r :: rs)
end

/-- `buildFilterClause`: renders every top-level node and joins the results
with `" AND "`. -/
def buildFilterClause (filters : List FilterNode) : Except String String := do
  let parts ← buildClauseList filters
  pure (String.intercalate " AND " parts)

/-- One `orderBy` entry of a query plan. -/
structure OrderBySpec where
  column : String
  direction : Option String := none
deriving Repr, BEq

/-- The `QueryPlan` interface. Optional fields are `Option`; `none` models an
absent (`undefined`) field. -/
structure QueryPlan where
  table : String
  columns : List String
  filters : Option (List FilterNode) := none
  limit : Option Int := none
  groupBy : Option (List String) := none
  orderBy : Option (List OrderBySpec) := none
deriving Repr, BEq

/-- `QUERY_LIMIT_CONSTANTS.DEFAULT_LIMIT`. -/
def DEFAULT_LIMIT : Int := 20

/-- `QUERY_LIMIT_CONSTANTS.MAX_LIMIT`. -/
def MAX_LIMIT : Int := 50

/-- The `where` expression of `buildSingleQuery`:
`plan.filters?.length ? this.buildFilterClause(plan.filters) : "1=1"`.
An absent or empty filter list is falsy and yields the literal `1=1`. -/
def whereResult (filters : Option (List FilterNode)) : Except String String :=
  match filters with
  | some fs => if fs.length != 0 then buildFilterClause fs else Except.ok "1=1"
  | none => Except.ok "1=1"

/-- The `groupBy` expression of `buildSingleQuery`; absent or empty is falsy
and yields the empty string. -/
def groupByText (groupBy : Option (List String)) : String :=
  match groupBy with
  | some gs => if gs.length != 0 then " GROUP BY " ++ String.intercalate ", " gs else ""
  | none => ""

/-- The `orderBy` expression of `buildSingleQuery`; each entry renders its
column followed by the optional direction. -/
def orderByText (orderBy : Option (List OrderBySpec)) : String :=
  match orderBy with
  | some os =>
      if os.length != 0 then
        " ORDER BY " ++ String.intercalate ", " (os.map fun o =>
          o.column ++ (match o.direction with | some d => " " ++ d | none => ""))
      else ""
  | none => ""

/-- The LIMIT clause appended by `buildSingleQuery`. With `hasOptionalLimit`
the source appends `` ` LIMIT ${Math.min(plan.limit, MAX_LIMIT)}` `` only when
`plan.limit && plan.limit > 0` is truthy, and nothing otherwise; without the
flag it always appends `` ` LIMIT ${Math.min(plan.limit || DEFAULT_LIMIT,
MAX_LIMIT)}` ``, where `plan.limit || DEFAULT_LIMIT` replaces an absent or
zero limit by the default. -/
def limitText (limit : Option Int) (hasOptionalLimit : Bool) : String :=
  if hasOptionalLimit then
    match limit with
    | some n => if 0 < n then " LIMIT " ++ toString (min n MAX_LIMIT) else ""
    | none => ""
  else
    " LIMIT " ++ toString (min
      (match limit with
       | some n => if n = 0 then DEFAULT_LIMIT else n
       | none => DEFAULT_LIMIT) MAX_LIMIT)

/-- `buildSingleQuery` of `BaseBigQueryPlanBuilder`: reject empty or wildcard
columns, then emit `SELECT … FROM … WHERE …` with the optional GROUP BY,
ORDER BY and LIMIT parts. -/
def buildSingleQuery (plan : QueryPlan) (_cteNames : List String)
    (hasOptionalLimit : Bool) : Except String String :=
  if plan.columns.length == 0 || plan.columns.contains "*" then
    Except.error "Invalid columns"
  else
    match whereResult plan.filters with
    | Except.error e => Except.error e
    | Except.ok whereClause =>
        Except.ok ("SELECT " ++ String.intercalate ", " plan.columns ++
          " FROM " ++ plan.table ++ " WHERE " ++ whereClause ++
          groupByText plan.groupBy ++ orderByText plan.orderBy ++
          limitText plan.limit hasOptionalLimit)

/-- A named CTE of a root plan. -/
structure CTEPlan where
  name : String
  query : QueryPlan
deriving Repr, BEq

/-- The `RootQueryPlan` interface. -/
structure RootQueryPlan where
  ctes : Option (List CTEPlan) := none
  main_query : QueryPlan
deriving Repr, BEq

/-- The map over `root.ctes` in `buildQuery`: compile each CTE plan with the
optional-limit flag set and wrap it as `name AS (subquery)`. -/
def buildCTEList (cteNames : List String) : List CTEPlan → Except String (List String)
  | [] => Except.ok []
  | c :: cs => do
      let sub ← buildSingleQuery c.query cteNames true
      let rest ← buildCTEList cteNames cs
      pure ((c.name ++ " AS (" ++ sub ++ ")") :: rest)

/-- `buildQuery` of `BaseBigQueryPlanBuilder`: compile each CTE with the
optional-limit flag set, wrap as `name AS (subquery)`, join with commas after
`WITH`; compile the main query without the flag; concatenate. -/
def buildQuery (root : RootQueryPlan) : Except String String := do
  let cteNames := (root.ctes.getD []).map (fun c => c.name)
  let ctes ← match root.ctes with
    | some cs =>
        if cs.length != 0 then do
          let parts ← buildCTEList cteNames cs
          pure ("WITH " ++ String.intercalate ", " parts)
        else pure ""
    | none => pure ""
  let main ← buildSingleQuery root.main_query cteNames false
  pure (if ctes != "" then ctes ++ "\n" ++ main else main)

/-- `true` exactly when an `Except` computation succeeded (no throw). -/
def exOk {A : Type} : Except String A → Bool
  | Except.ok _ => true
  | Except.error _ => false

/-- Mirror of the error conditions of the leaf case of `buildClause`: a
disallowed operator, a BETWEEN value that is not an array of length 2, or an
IN value that is not an array. -/
def badLeaf (op : String) (value : JsVal) : Bool :=
  if !(allowedOperators.contains op) then true
  else if op = "BETWEEN" then
    (match value with
     | JsVal.varr [_, _] => false
     | _ => true)
  else if op == "IN" && !value.isArray then true
  else false

mutual
/-- A filter node on which `buildClause` throws. -/
def badNode : FilterNode → Bool
  | .leaf _ op value => badLeaf op value
  | .group _ fs => badList fs

/-- A filter list containing a node on which `buildClause` throws. -/
def badList : List FilterNode → Bool
  | [] => false
  | f :: fs => badNode f || badList fs
end

/-- The filter-related error condition of one compiled query: a present,
non-empty filter list containing a bad node. -/
def badFilters (filters : Option (List FilterNode)) : Bool :=
  match filters with
  | some fs => (fs.length != 0) && badList fs
  | none => false

/-- All conditions on which `buildSingleQuery` throws: empty columns, a
wildcard column, or a bad filter node. -/
def malformedQuery (p : QueryPlan) : Bool :=
  (p.columns.length == 0 || p.columns.contains "*") || badFilters p.filters

/-- All conditions on which `buildQuery` throws: a malformed CTE query or a
malformed main query. -/
def malformedRoot (r : RootQueryPlan) : Bool :=
  (match r.ctes with
   | some cs => cs.any (fun c => malformedQuery c.query)
   | none => false) || malformedQuery r.main_query

/-- Substring test used to state facts about emitted SQL and reasons. -/
def strContains (needle hay : String) : Bool :=
  hay.toList.tails.any fun t => needle.toList.isPrefixOf t

/-- A CTE query with no limit requested, for the C3 counterexample. -/
def cteNoLimitQuery : QueryPlan :=
  { table := "t", columns := ["a"] }

/-- A root plan whose single CTE requests no limit. -/
def cteNoLimitRoot : RootQueryPlan :=
  { ctes := some [{ name := "c", query := cteNoLimitQuery }],
    main_query := { table := "u", columns := ["b"] } }

/-- A plan requesting a limit of 60 (above `MAX_LIMIT`). -/
def posLimitPlan : QueryPlan :=
  { table := "t", columns := ["a"], limit := some 60 }

/-- A plan with two top-level filters. -/
def twoFilterPlan : QueryPlan :=
  { table := "t", columns := ["a"],
    filters := some [FilterNode.leaf "a" "=" (JsVal.vnum 1),
                     FilterNode.leaf "b" "=" (JsVal.vnum 2)] }

/-- A root plan with a disallowed LIKE operator. -/
def likeFilterRoot : RootQueryPlan :=
  { main_query :=
      { table := "t", columns := ["id"],
        filters := some [FilterNode.leaf "id" "LIKE" (JsVal.vstr "x")],
        limit := some 1 } }

/-! ## JavaScript string primitives -/

/-- Code points of the JavaScript whitespace set: the characters removed by
`String.prototype.trim` (ASCII whitespace, NBSP, the Unicode space
separators, line/paragraph separators and the BOM). -/
def jsSpaceCodes : List Nat :=
  [9, 10, 11, 12, 13, 32, 160, 0x1680, 0x2000, 0x2001, 0x2002, 0x2003, 0x2004,
   0x2005, 0x2006, 0x2007, 0x2008, 0x2009, 0x200A, 0x2028, 0x2029, 0x202F,
   0x205F, 0x3000, 0xFEFF]

/-- Whether a character belongs to the JavaScript whitespace set. -/
def jsIsSpace (c : Char) : Bool :=
  jsSpaceCodes.contains c.toNat

/-- `String.prototype.trim`: drop leading and trailing JS whitespace. -/
def jsTrim (s : String) : String :=
  String.mk (((s.toList.dropWhile jsIsSpace).reverse.dropWhile jsIsSpace).reverse)

/-- Case mapping of a single character, modelling `toLowerCase` on the ASCII
range (the only range exercised by this code's inputs): `A`–`Z` map to
`a`–`z`, everything else is unchanged. -/
def jsLowerChar (c : Char) : Char :=
  if 65 ≤ c.toNat && c.toNat ≤ 90 then Char.ofNat (c.toNat + 32) else c

/-- `String.prototype.toLowerCase` over the modelled character map. -/
def jsToLower (s : String) : String :=
  String.mk (s.toList.map jsLowerChar)

/-! ## Plan validator (`LLMService.validatePlan`) -/

/-- The `main_query` object as received from the model, before validation:
every field may be missing or of the wrong shape. `table = none` models a
missing or non-string table; `columns = none` models a missing or non-array
columns field; `filters = none` models a missing or non-array filters field. -/
structure VMainQuery where
  table : Option String := none
  columns : Option (List String) := none
  filters : Option (List FilterNode) := none
deriving Repr, BEq

/-- The root object as received from the model; `main_query` may be absent. -/
structure VRootPlan where
  main_query : Option VMainQuery := none
deriving Repr, BEq

/-- The `{ ok, reason? }` result of `validatePlan`. -/
structure ValidationResult where
  ok : Bool
  reason : Option String := none
deriving Repr, BEq

/-- A filter entry counted by the `_TABLE_SUFFIX` heuristic: an object with
`column` and `op` fields (a leaf, not a group) whose column is
`_TABLE_SUFFIX` and whose operator is `BETWEEN`, `IN` or `=`. -/
def isSuffixFilterNode : FilterNode → Bool
  | .leaf col op _ => col == "_TABLE_SUFFIX" && (op == "BETWEEN" || op == "IN" || op == "=")
  | .group _ _ => false

/-- `Array.isArray(main.filters) && main.filters.some(...)` of `validatePlan`. -/
def hasSuffixFilter (filters : Option (List FilterNode)) : Bool :=
  match filters with
  | some fs => fs.any isSuffixFilterNode
  | none => false

/-- One position of the day-wildcard test: the regular expressions
`githubarchive\.day\.[0-9]\x7b4\x7d\*` and `githubarchive\.day\.\*` match at
the head of the character list. -/
def matchesDayWildcardAt (l : List Char) : Bool :=
  ("githubarchive.day.".toList.isPrefixOf l) &&
    (let rest := l.drop 18
     (match rest with
      | d1 :: d2 :: d3 :: d4 :: '*' :: _ =>
          d1.isDigit && d2.isDigit && d3.isDigit && d4.isDigit
      | _ => false) ||
     (match rest with
      | '*' :: _ => true
      | _ => false))

/-- `usesWildcardDayTable` of `validatePlan`: an (unanchored) regex search,
i.e. the pattern matches at some position of the table string. -/
def usesWildcardDayTable (table : String) : Bool :=
  table.toList.tails.any matchesDayWildcardAt

/-- `validatePlan` of `LLMService`: checks, in order, that the root object is
present, `main_query` is present, `table` is a truthy string, `columns` is a
non-empty array, no column trims to `*`, and a day-wildcard table has a
`_TABLE_SUFFIX` filter. -/
def validatePlan (root : Option VRootPlan) : ValidationResult :=
  match root with
  | none => { ok := false, reason := some "Invalid plan" }
  | some r =>
    match r.main_query with
    | none => { ok := false, reason := some "Missing main_query" }
    | some main =>
      match main.table with
      | none => { ok := false, reason := some "Missing table" }
      | some t =>
        if t = "" then { ok := false, reason := some "Missing table" }
        else match main.columns with
        | none => { ok := false, reason := some "Missing columns" }
        | some cols =>
          if cols.length = 0 then { ok := false, reason := some "Missing columns" }
          else if cols.any (fun c => jsTrim c == "*") then
            { ok := false, reason := some "Wildcard columns are not allowed" }
          else if usesWildcardDayTable t && !(hasSuffixFilter main.filters) then
            { ok := false, reason := some "Wildcard day table requires _TABLE_SUFFIX filter" }
          else { ok := true, reason := none }

/-- A concrete wildcard-table main query without a suffix filter, for the C6
witness. -/
def wildcardNoSuffixMain : VMainQuery :=
  { table := some "githubarchive.day.2012*", columns := some ["a"] }

/-! ## SHA-256 (`crypto.createHash("sha256")`, FIPS 180-4)

`calculatePromptHash` and `calculateSqlHash` in `src/controllers/utils.ts`
call Node's SHA-256 over the UTF-8 bytes of their input and hex-encode the
digest; the algorithm below is that standard digest, on `Nat` words reduced
modulo `2^32`. -/

/-- Reduce modulo `2^32`. -/
def w32 (n : Nat) : Nat := n % 4294967296

/-- Right rotation of a 32-bit word by `k` places. -/
def rotr32 (k n : Nat) : Nat := (n / 2 ^ k) + (n % 2 ^ k) * 2 ^ (32 - k)

/-- Right shift of a 32-bit word by `k` places. -/
def shr32 (k n : Nat) : Nat := n / 2 ^ k

/-- Bitwise complement on 32 bits. -/
def not32 (n : Nat) : Nat := 4294967295 ^^^ n

/-- The SHA-256 `Ch` function. -/
def ch32 (x y z : Nat) : Nat := (x &&& y) ^^^ (not32 x &&& z)

/-- The SHA-256 `Maj` function. -/
def maj32 (x y z : Nat) : Nat := (x &&& y) ^^^ (x &&& z) ^^^ (y &&& z)

/-- The SHA-256 `Σ0` function. -/
def bigSigma0 (x : Nat) : Nat := rotr32 2 x ^^^ rotr32 13 x ^^^ rotr32 22 x

/-- The SHA-256 `Σ1` function. -/
def bigSigma1 (x : Nat) : Nat := rotr32 6 x ^^^ rotr32 11 x ^^^ rotr32 25 x

/-- The SHA-256 `σ0` function. -/
def smallSigma0 (x : Nat) : Nat := rotr32 7 x ^^^ rotr32 18 x ^^^ shr32 3 x

/-- The SHA-256 `σ1` function. -/
def smallSigma1 (x : Nat) : Nat := rotr32 17 x ^^^ rotr32 19 x ^^^ shr32 10 x

/-- The 64 SHA-256 round constants. -/
def K256 : List Nat :=
  [1116352408, 1899447441, 3049323471, 3921009573, 961987163,
   1508970993, 2453635748, 2870763221, 3624381080, 310598401,
   607225278, 1426881987, 1925078388, 2162078206, 2614888103,
   3248222580, 3835390401, 4022224774, 264347078, 604807628,
   770255983, 1249150122, 1555081692, 1996064986, 2554220882,
   2821834349, 2952996808, 3210313671, 3336571891, 3584528711,
   113926993, 338241895, 666307205, 773529912, 1294757372,
   1396182291, 1695183700, 1986661051, 2177026350, 2456956037,
   2730485921, 2820302411, 3259730800, 3345764771, 3516065817,
   3600352804, 4094571909, 275423344, 430227734, 506948616,
   659060556, 883997877, 958139571, 1322822218, 1537002063,
   1747873779, 1955562222, 2024104815, 2227730452, 2361852424,
   2428436474, 2756734187, 3204031479, 3329325298]

/-- The eight 32-bit chaining words of a SHA-256 state or digest. -/
structure Hash8 where
  a : Nat
  b : Nat
  c : Nat
  d : Nat
  e : Nat
  f : Nat
  g : Nat
  h : Nat
deriving Repr, BEq

/-- The SHA-256 initial hash value. -/
def initH : Hash8 :=
  ⟨1779033703, 3144134277, 1013904242, 2773480762,
   1359893119, 2600822924, 528734635, 1541459225⟩

/-- SHA-256 padding: append `0x80`, zero bytes up to 56 mod 64, then the
64-bit big-endian bit length. -/
def padMessage (msg : List Nat) : List Nat :=
  let bitLen := msg.length * 8
  let zeros := (119 - (msg.length % 64)) % 64
  msg ++ [128] ++ List.replicate zeros 0 ++
    [bitLen / 2 ^ 56 % 256, bitLen / 2 ^ 48 % 256, bitLen / 2 ^ 40 % 256,
     bitLen / 2 ^ 32 % 256, bitLen / 2 ^ 24 % 256, bitLen / 2 ^ 16 % 256,
     bitLen / 2 ^ 8 % 256, bitLen % 256]

/-- Big-endian packing of bytes into 32-bit words. -/
def toWords : List Nat → List Nat
  | b0 :: b1 :: b2 :: b3 :: rest =>
      (b0 * 16777216 + b1 * 65536 + b2 * 256 + b3) :: toWords rest
  | _ => []

/-- Split a word list into 16-word blocks. -/
def toBlocks : List Nat → List (List Nat)
  | [] => []
  | w :: ws => (w :: ws.take 15) :: toBlocks (ws.drop 15)
termination_by l => l.length
decreasing_by
  simp
  omega

/-- One extension step of the message schedule: append
`σ1(W[t-2]) + W[t-7] + σ0(W[t-15]) + W[t-16]`. -/
def stepW (ws : List Nat) : List Nat :=
  let n := ws.length
  ws ++ [w32 (smallSigma1 (ws.getD (n - 2) 0) + ws.getD (n - 7) 0 +
    smallSigma0 (ws.getD (n - 15) 0) + ws.getD (n - 16) 0)]

/-- The 64-word message schedule of one block. -/
def scheduleWords (block : List Nat) : List Nat :=
  (List.range 48).foldl (fun ws _ => stepW ws) block

/-- One SHA-256 round on the working variables. -/
def compressStep (st : Hash8) (kw : Nat × Nat) : Hash8 :=
  let t1 := w32 (st.h + bigSigma1 st.e + ch32 st.e st.f st.g + kw.1 + kw.2)
  let t2 := w32 (bigSigma0 st.a + maj32 st.a st.b st.c)
  ⟨w32 (t1 + t2), st.a, st.b, st.c, w32 (st.d + t1), st.e, st.f, st.g⟩

/-- Process one 16-word block: 64 rounds, then add to the chaining value. -/
def compressBlock (hv : Hash8) (block : List Nat) : Hash8 :=
  let ws := scheduleWords block
  let st := (K256.zip ws).foldl compressStep hv
  ⟨w32 (hv.a + st.a), w32 (hv.b + st.b), w32 (hv.c + st.c), w32 (hv.d + st.d),
   w32 (hv.e + st.e), w32 (hv.f + st.f), w32 (hv.g + st.g), w32 (hv.h + st.h)⟩

/-- The SHA-256 digest of a byte sequence (bytes as `Nat` below 256). -/
def sha256Bytes (msg : List Nat) : Hash8 :=
  (toBlocks (toWords (padMessage msg))).foldl compressBlock initH

/-- One hex digit (lowercase, as Node's `digest("hex")`). -/
def hexDigit (n : Nat) : Char :=
  if n < 10 then Char.ofNat (48 + n) else Char.ofNat (87 + n)

/-- The exactly-eight-digit hex rendering of a 32-bit word. -/
def hexWord8 (n : Nat) : List Char :=
  [hexDigit (n / 2 ^ 28 % 16), hexDigit (n / 2 ^ 24 % 16),
   hexDigit (n / 2 ^ 20 % 16), hexDigit (n / 2 ^ 16 % 16),
   hexDigit (n / 2 ^ 12 % 16), hexDigit (n / 2 ^ 8 % 16),
   hexDigit (n / 2 ^ 4 % 16), hexDigit (n % 16)]

/-- Hex encoding of the digest, 64 lowercase hex characters. -/
def Hash8.toHex (hv : Hash8) : String :=
  String.mk (hexWord8 hv.a ++ hexWord8 hv.b ++ hexWord8 hv.c ++ hexWord8 hv.d ++
    hexWord8 hv.e ++ hexWord8 hv.f ++ hexWord8 hv.g ++ hexWord8 hv.h)

/-- The UTF-8 bytes of a string, as `crypto.update` consumes it. -/
def utf8Bytes (s : String) : List Nat :=
  s.toUTF8.toList.map (fun b => b.toNat)

/-- Hex-encoded SHA-256 of a string's UTF-8 bytes:
`crypto.createHash("sha256").update(s).digest("hex")`. -/
def sha256Hex (s : String) : String :=
  (sha256Bytes (utf8Bytes s)).toHex

/-- `calculatePromptHash` of `src/controllers/utils.ts`:
hash of `userPrompt.trim().toLowerCase()`. -/
def calculatePromptHash (userPrompt : String) : String :=
  sha256Hex (jsToLower (jsTrim userPrompt))

/-- `calculateSqlHash` of `src/controllers/utils.ts`: hash of the SQL text
unmodified. -/
def calculateSqlHash (sql : String) : String :=
  sha256Hex sql


/-! ## Jobs (`JobService`, `ErrorUtils`) -/

/-- Model of the values that can be thrown inside a job handler: a designated
`UserFacingError`, a plain string, or any other error object carrying an
internal message and a stack trace. -/
inductive JsError where
  | userFacing (message : String) (code : Option String)
  | plainString (s : String)
  | internal (message : String) (stack : String)
deriving Repr, DecidableEq

/-- `toSafeFailedReason` of `ErrorUtils`: the message of a `UserFacingError`,
a plain string as given, and a fixed generic message for everything else. -/
def toSafeFailedReason : JsError → String
  | .userFacing message _ => message
  | .plainString s => s
  | .internal _ _ => "An unexpected error occurred. Please try again later."

/-- The fields of a Bull job consulted by `getJobStatus` and the failure
handler. -/
structure BullJob where
  processedOn : Option Nat := none
  finishedOn : Option Nat := none
  failedReason : Option String := none
deriving Repr, DecidableEq

/-- JavaScript truthiness of an optional numeric timestamp (0 is falsy). -/
def truthyNat : Option Nat → Bool
  | some n => n != 0
  | none => false

/-- JavaScript truthiness of an optional string (the empty string is falsy). -/
def truthyStr : Option String → Bool
  | some s => s != ""
  | none => false

/-- `getJobStatus` of `JobService`: coarse status from the Bull timestamps. -/
def getJobStatus (job : BullJob) : String :=
  if truthyNat job.finishedOn then
    if truthyStr job.failedReason then "failed" else "completed"
  else if truthyNat job.processedOn then "processing"
  else "pending"

/-- The `queue.on("failed")` handler registered by `initQueue`: the job's
`failedReason` is overwritten with the sanitized reason before the event is
re-emitted. -/
def onQueueFailed (job : BullJob) (error : JsError) : BullJob :=
  { job with failedReason := some (toSafeFailedReason error) }

/-! ## Push-channel registry (`SSEService`) -/

/-- `Map.prototype.get` on an association list. -/
def getAssocGen {A : Type} (m : List (String × A)) (k : String) : Option A :=
  match m with
  | [] => none
  | (k2, v2) :: rest => if k2 == k then some v2 else getAssocGen rest k

/-- `Map.prototype.set` on an association list: replace the binding of the
key if present, else append it. -/
def setAssocGen {A : Type} (m : List (String × A)) (k : String) (v : A) : List (String × A) :=
  match m with
  | [] => [(k, v)]
  | (k2, v2) :: rest => if k2 == k then (k, v) :: rest else (k2, v2) :: setAssocGen rest k v

/-- `Map.prototype.delete` on an association list. -/
def delAssocGen {A : Type} (m : List (String × A)) (k : String) : List (String × A) :=
  match m with
  | [] => []
  | (k2, v2) :: rest => if k2 == k then rest else (k2, v2) :: delAssocGen rest k

/-- Number of bindings of a key (a JS `Map` always has at most one). -/
def countKey {A : Type} (m : List (String × A)) (k : String) : Nat :=
  (m.filter (fun p => p.1 == k)).length

/-- The event payload pushed over a channel; only `status` steers the
teardown logic. -/
structure JobStateMsg where
  jobId : String
  status : String
deriving Repr, DecidableEq

/-- Observable state of `SSEService`: the `activeConnections` map from job
key to channel id, the channels on which `raw.end()` was called, the events
written per channel, and the job keys with a close scheduled after the grace
delay. -/
structure SSEState where
  active : List (String × Nat) := []
  closed : List Nat := []
  written : List (Nat × JobStateMsg) := []
  pendingClose : List String := []
deriving Repr, DecidableEq

/-- `writeEventAndMaybeClose`: write the event to the channel; on a terminal
status schedule a close of the job key after `CONNECTION_CLOSE_TIMEOUT`. -/
def writeEventAndMaybeClose (st : SSEState) (customJobId : String) (channel : Nat)
    (jobState : JobStateMsg) : SSEState :=
  let st := { st with written := st.written ++ [(channel, jobState)] }
  if jobState.status == "completed" || jobState.status == "failed" then
    { st with pendingClose := st.pendingClose ++ [customJobId] }
  else st

/-- `setupConnection` of `SSEService`: register the channel under the job key
(replacing any previous binding) and write the initial state. -/
def setupConnection (st : SSEState) (customJobId : String) (channel : Nat)
    (jobState : JobStateMsg) : SSEState :=
  let st := { st with active := setAssocGen st.active customJobId channel }
  writeEventAndMaybeClose st customJobId channel jobState

/-- `closeConnection` of `SSEService`: end and deregister the channel bound
to the key, if any. -/
def closeConnection (st : SSEState) (customJobId : String) : SSEState :=
  match getAssocGen st.active customJobId with
  | some channel =>
      { st with closed := st.closed ++ [channel],
                active := delAssocGen st.active customJobId }
  | none => st

/-! ## Question pipeline (`QuestionsService`, `LLMService`)

The external collaborators are oracles: the planner's structured response is
an input, the warehouse executor is a function argument (each invocation is
counted in the state), and the chart-config inference is an input value. The
persistent stores (Postgres question records, the two Redis fingerprint
caches, the Bull job list) are explicit state. -/

/-- JavaScript truthiness of a value. -/
def jsTruthy : JsVal → Bool
  | .vstr s => s != ""
  | .vnum n => n != 0
  | .vbool b => b
  | .vnull => false
  | .varRef _ => true
  | .varr _ => true

/-- JavaScript truthiness of an optional value (absent is falsy). -/
def truthyOptVal : Option JsVal → Bool
  | some v => jsTruthy v
  | none => false

/-- A question row in Postgres. -/
structure QuestionRecord where
  id : String
  questionContent : String := ""
  title : String := ""
  bigQuerySql : String := ""
  sqlHash : String := ""
  structuredQueryPlanSchema : Option RootQueryPlan := none
deriving Repr, BEq

/-- A prompt-fingerprint cache entry: `{ jobId, questionId }`. -/
structure PromptCacheEntry where
  jobId : Option String := none
  questionId : Option String := none
deriving Repr, BEq

/-- A SQL-fingerprint cache entry:
`{ questionId, result, chartConfig, jobId }`. -/
structure SqlCacheEntry where
  questionId : Option String := none
  result : Option JsVal := none
  chartConfig : Option JsVal := none
  jobId : Option String := none
deriving Repr, BEq

/-- A Bull job as enqueued by `createJob` (with `skipExistingCheck`), plus
its failed flag as seen by `isFailed()`. -/
structure SchedJob where
  id : String
  customId : String
  questionId : String
  userQuestion : String
  failed : Bool := false
deriving Repr, BEq

/-- The persistent state the pipeline reads and writes. -/
structure PipelineState where
  questions : List QuestionRecord := []
  promptCache : List (String × PromptCacheEntry) := []
  sqlCache : List (String × SqlCacheEntry) := []
  jobs : List SchedJob := []
  jobMetadata : List (String × String) := []
  executorCalls : Nat := 0
deriving Repr, BEq

/-- The queue name of the question processor. -/
def QUESTION_JOB_TYPE : String := "question-processing"

/-- `generateCustomId` of `JobService`. -/
def generateCustomId (jobType jobKey : String) : String :=
  jobType ++ ":" ++ jobKey

/-- `findExistingJob` of `JobService`: first job whose `customId` matches. -/
def findExistingJob (jobs : List SchedJob) (jobType jobKey : String) : Option SchedJob :=
  jobs.find? (fun j => j.customId == generateCustomId jobType jobKey)

/-- The planner's structured response, as consumed by
`generateQueryPlanWithSchemaContext` after parsing: the self-reported
fidelity and abstain flag, the generated title, and the parsed plan — the
same JSON value, seen once loosely by the validator (`vplan`) and once as a
`RootQueryPlan` by the compiler (`cplan`). -/
structure PlannerResponse where
  fidelity : Option ℚ := none
  abstain : Bool := false
  title : String := ""
  vplan : Option VRootPlan := none
  cplan : RootQueryPlan

/-- The abstention message of `generateQueryPlanWithSchemaContext`. -/
def abstentionMessage : String :=
  "Could not generate a safe SQL for this question. Please try refining your prompt."

/-- The abstention condition: the explicit abstain flag, a fidelity below the
default threshold 0.7 (absent fidelity counts as 0), or validator
rejection. -/
def shouldAbstain (resp : PlannerResponse) : Bool :=
  resp.abstain ||
  decide ((match resp.fidelity with | some f => f | none => 0) < (7 : ℚ) / 10) ||
  !(validatePlan resp.vplan).ok

/-- The tail of `generateQueryPlanWithSchemaContext`: abstain with a
`UserFacingError`, or compile the plan to SQL and return it with the title
(a compile throw propagates as an internal error). -/
def generateQueryPlan (resp : PlannerResponse) : Except JsError (String × String) :=
  if shouldAbstain resp then
    Except.error (JsError.userFacing abstentionMessage none)
  else
    match buildQuery resp.cplan with
    | Except.ok sql => Except.ok (sql, resp.title)
    | Except.error e => Except.error (JsError.internal e "stack")

/-- `postgresService.updateQuestion`: set the compiled fields on the matching
record. -/
def updateQuestion (qs : List QuestionRecord) (questionId sql title sqlHash : String)
    (schema : RootQueryPlan) : List QuestionRecord :=
  qs.map fun q =>
    if q.id == questionId then
      { q with bigQuerySql := sql, title := title, sqlHash := sqlHash,
               structuredQueryPlanSchema := some schema }
    else q

/-- `postgresService.deleteQuestion`: drop the record with the given id. -/
def deleteQuestion (qs : List QuestionRecord) (questionId : String) : List QuestionRecord :=
  qs.filter fun q => q.id != questionId

/-- The cache-miss tail of `processQuestionJob`: persist the compiled SQL on
the question record, invoke the external executor, infer the chart config,
cache the result under the SQL fingerprint, and return it. -/
def processMiss (st : PipelineState) (jobId questionId : String)
    (sql title : String) (schema : RootQueryPlan)
    (executor : String → JsVal) (chartConfig : JsVal) :
    PipelineState × Except JsError (Option JsVal × Option JsVal) × Bool :=
  let sqlHash := calculateSqlHash sql
  let st := { st with questions := updateQuestion st.questions questionId sql title sqlHash schema }
  let queryResult := executor sql
  let st := { st with executorCalls := st.executorCalls + 1 }
  let entry : SqlCacheEntry :=
    { questionId := some questionId, result := some queryResult,
      chartConfig := some chartConfig, jobId := some jobId }
  let st := { st with sqlCache := setAssocGen st.sqlCache sqlHash entry }
  (st, Except.ok (some queryResult, some chartConfig), false)

/-- `processQuestionJob` of `QuestionsService`: plan, fingerprint the SQL,
serve a cache hit (delete the duplicate record, re-point the prompt cache,
mark deduplicated) or fall through to the paid path. The final component is
the `job.data.deduplicated` flag. -/
def processQuestionJob (st : PipelineState) (jobId questionId userQuestion : String)
    (resp : PlannerResponse) (executor : String → JsVal) (chartConfig : JsVal) :
    PipelineState × Except JsError (Option JsVal × Option JsVal) × Bool :=
  match generateQueryPlan resp with
  | Except.error e => (st, Except.error e, false)
  | Except.ok (sql, title) =>
    let sqlHash := calculateSqlHash sql
    match getAssocGen st.sqlCache sqlHash with
    | some sqlInfo =>
        if truthyStr sqlInfo.questionId && truthyOptVal sqlInfo.result then
          let st := { st with questions := deleteQuestion st.questions questionId }
          let promptHash := calculatePromptHash userQuestion
          let entry : PromptCacheEntry :=
            { jobId := sqlInfo.jobId, questionId := sqlInfo.questionId }
          let st := { st with promptCache := setAssocGen st.promptCache promptHash entry }
          (st, Except.ok (sqlInfo.result, sqlInfo.chartConfig), true)
        else
          processMiss st jobId questionId sql title resp.cplan executor chartConfig
    | none =>
        processMiss st jobId questionId sql title resp.cplan executor chartConfig

/-- `scheduleQuestionJob` of `QuestionsService`: reuse a cached, non-failed
job for the prompt fingerprint, else create the question record (when no id
was passed), enqueue the job, persist job metadata and cache the prompt
fingerprint. `freshId` stands for `crypto.randomUUID()` and `newBullId` for
the Bull id the queue assigns. -/
def scheduleQuestionJob (st : PipelineState) (userQuestion : String)
    (questionIdParam : Option String) (freshId newBullId : String) :
    PipelineState × SchedJob × String :=
  let promptHash := calculatePromptHash userQuestion
  let reuse : Option SchedJob :=
    match getAssocGen st.promptCache promptHash with
    | some promptInfo =>
        if truthyStr promptInfo.jobId && truthyStr promptInfo.questionId then
          match findExistingJob st.jobs QUESTION_JOB_TYPE (promptInfo.questionId.getD "") with
          | some existing => if !existing.failed then some existing else none
          | none => none
        else none
    | none => none
  match reuse with
  | some existing => (st, existing, existing.questionId)
  | none =>
    let questionId := if truthyStr questionIdParam then questionIdParam.getD "" else freshId
    let st :=
      if truthyStr questionIdParam then st
      else { st with questions := st.questions ++
        [{ id := freshId, questionContent := userQuestion, title := "Processing...",
           bigQuerySql := "", sqlHash := "" }] }
    let job : SchedJob :=
      { id := newBullId, customId := generateCustomId QUESTION_JOB_TYPE questionId,
        questionId := questionId, userQuestion := userQuestion }
    let st := { st with jobs := st.jobs ++ [job] }
    let st := { st with jobMetadata := st.jobMetadata ++ [(newBullId, "pending")] }
    let entry : PromptCacheEntry := { jobId := some newBullId, questionId := some questionId }
    let st := { st with promptCache := setAssocGen st.promptCache promptHash entry }
    (st, job, questionId)

/-- A planner response that abstains explicitly. -/
def abstainingResp : PlannerResponse :=
  { fidelity := some 1, abstain := true, title := "T",
    vplan := some { main_query := some { table := some "t", columns := some ["a"] } },
    cplan := { main_query := { table := "t", columns := ["a"] } } }

/-- A planner response that passes validation and compiles. -/
def okResp : PlannerResponse :=
  { fidelity := some 1, abstain := false, title := "T",
    vplan := some { main_query := some { table := some "t", columns := some ["a"] } },
    cplan := { main_query := { table := "t", columns := ["a"] } } }

/-- The SQL `okResp` compiles to. -/
def okSql : String := "SELECT a FROM t WHERE 1=1 LIMIT 20"

/-- A cached SQL-fingerprint entry for `okSql`, for the C1 witness. -/
def okSqlEntry : SqlCacheEntry :=
  { questionId := some "q0", result := some (JsVal.vstr "rows"),
    chartConfig := some (JsVal.vstr "cfg"), jobId := some "j0" }

/-- A pipeline state whose SQL cache already holds `okSql`. -/
def hitState : PipelineState :=
  { questions := [{ id := "q1" }],
    sqlCache := [(calculateSqlHash okSql, okSqlEntry)] }

/-! ## Helper lemmas about the compiler -/

theorem except_bind_ok {A B : Type} (a : A) (f : A → Except String B) :
    (Except.ok a >>= f) = f a := rfl

theorem except_bind_error {A B : Type} (e : String) (f : A → Except String B) :
    ((Except.error e : Except String A) >>= f) = Except.error e := rfl

theorem except_map_ok {A B : Type} (g : A → B) (a : A) :
    (g <$> (Except.ok a : Except String A)) = Except.ok (g a) := rfl

theorem except_map_error {A B : Type} (g : A → B) (e : String) :
    (g <$> (Except.error e : Except String A)) = (Except.error e : Except String B) := rfl

mutual
theorem exOk_buildClause : ∀ f : FilterNode, exOk (buildClause f) = !(badNode f)
  | .group l fs => by
      have ih := exOk_buildClauseList fs
      cases h : buildClauseList fs with
      | error e =>
          rw [h] at ih
          simp [buildClause, h, badNode, ← ih, exOk]
      | ok parts =>
          rw [h] at ih
          simp [buildClause, h, badNode, ← ih, exOk]
  | .leaf c op v => by
      simp only [buildClause, badNode, badLeaf]
      split
      · simp [exOk]
      · split
        · rcases v with s | n | b | _ | w | (_ | ⟨a, _ | ⟨b, _ | ⟨c', rest⟩⟩⟩) <;>
            simp [exOk]
        · split
          · simp [exOk]
          · simp [exOk]

theorem exOk_buildClauseList : ∀ fs : List FilterNode,
    exOk (buildClauseList fs) = !(badList fs)
  | [] => by simp [buildClauseList, badList, exOk]
  | f :: fs => by
      have ih1 := exOk_buildClause f
      have ih2 := exOk_buildClauseList fs
      cases h1 : buildClause f with
      | error e =>
          rw [h1] at ih1
          simp [buildClauseList, h1, badList, except_bind_error, except_bind_ok,
            except_map_error, except_map_ok, ← ih1, exOk]
      | ok r =>
          rw [h1] at ih1
          cases h2 : buildClauseList fs with
          | error e =>
              rw [h2] at ih2
              simp [buildClauseList, h1, h2, badList, except_bind_error, except_bind_ok,
                except_map_error, except_map_ok, ← ih1, ← ih2, exOk]
          | ok rs =>
              rw [h2] at ih2
              simp [buildClauseList, h1, h2, badList, except_bind_error, except_bind_ok,
                except_map_error, except_map_ok, ← ih1, ← ih2, exOk]
end

theorem exOk_buildFilterClause (fs : List FilterNode) :
    exOk (buildFilterClause fs) = !(badList fs) := by
  have ih := exOk_buildClauseList fs
  cases h : buildClauseList fs with
  | error e =>
      rw [h] at ih
      simpa [buildFilterClause, h, except_bind_error] using ih
  | ok rs =>
      rw [h] at ih
      simpa [buildFilterClause, h, except_bind_ok, exOk] using ih

theorem exOk_whereResult (filters : Option (List FilterNode)) :
    exOk (whereResult filters) = !(badFilters filters) := by
  cases filters with
  | none => simp [whereResult, badFilters, exOk]
  | some fs =>
      simp only [whereResult, badFilters]
      by_cases h : (fs.length != 0) = true
      · simp [h, exOk_buildFilterClause]
      · simp only [Bool.not_eq_true] at h
        simp [h, exOk]

theorem exOk_buildSingleQuery (p : QueryPlan) (ns : List String) (opt : Bool) :
    exOk (buildSingleQuery p ns opt) = !(malformedQuery p) := by
  simp only [buildSingleQuery, malformedQuery]
  by_cases hc : (p.columns.length == 0 || p.columns.contains "*") = true
  · rw [if_pos hc, hc]
    simp [exOk]
  · rw [if_neg hc]
    rw [Bool.not_eq_true] at hc
    rw [hc]
    have ih := exOk_whereResult p.filters
    cases h : whereResult p.filters with
    | error e =>
        rw [h] at ih
        simp only [exOk] at ih
        simp [exOk, ← ih]
    | ok w =>
        rw [h] at ih
        simp only [exOk] at ih
        simp [exOk, ← ih]

theorem exOk_buildCTEList (ns : List String) (cs : List CTEPlan) :
    exOk (buildCTEList ns cs) = !(cs.any fun c => malformedQuery c.query) := by
  induction cs with
  | nil => simp [buildCTEList, exOk]
  | cons c cs ih =>
      have h1 := exOk_buildSingleQuery c.query ns true
      cases hq : buildSingleQuery c.query ns true with
      | error e =>
          rw [hq] at h1
          simp [buildCTEList, hq, except_bind_error, ← h1, exOk]
      | ok sub =>
          rw [hq] at h1
          cases hr : buildCTEList ns cs with
          | error e =>
              rw [hr] at ih
              simp [buildCTEList, hq, hr, except_bind_error, except_bind_ok, ← h1, ← ih, exOk]
          | ok rest =>
              rw [hr] at ih
              simp [buildCTEList, hq, hr, except_bind_error, except_bind_ok, ← h1, ← ih, exOk]

theorem exOk_buildQuery (r : RootQueryPlan) :
    exOk (buildQuery r) = !(malformedRoot r) := by
  simp only [buildQuery, malformedRoot]
  cases hc : r.ctes with
  | none =>
      simp only [Option.getD, List.map]
      have hmain := exOk_buildSingleQuery r.main_query [] false
      cases hq : buildSingleQuery r.main_query [] false with
      | error e =>
          rw [hq] at hmain
          simp only [exOk] at hmain
          simp [hq, except_bind_ok, except_bind_error, exOk, ← hmain]
      | ok m =>
          rw [hq] at hmain
          simp only [exOk] at hmain
          simp [hq, except_bind_ok, except_bind_error, exOk, ← hmain]
  | some cs =>
      simp only [Option.getD]
      have hmain := exOk_buildSingleQuery r.main_query
        (cs.map (fun (c : CTEPlan) => c.name)) false
      by_cases hlen : (cs.length != 0) = true
      · rw [if_pos hlen]
        have hctes := exOk_buildCTEList (cs.map (fun (c : CTEPlan) => c.name)) cs
        cases hl : buildCTEList (cs.map (fun (c : CTEPlan) => c.name)) cs with
        | error e =>
            rw [hl] at hctes
            simp only [exOk] at hctes
            simp [hl, except_bind_ok, except_bind_error, exOk, ← hctes]
        | ok parts =>
            rw [hl] at hctes
            simp only [exOk] at hctes
            cases hq : buildSingleQuery r.main_query
                (cs.map (fun (c : CTEPlan) => c.name)) false with
            | error e =>
                rw [hq] at hmain
                simp only [exOk] at hmain
                simp [hl, hq, except_bind_ok, except_bind_error, exOk, ← hctes, ← hmain]
            | ok m =>
                rw [hq] at hmain
                simp only [exOk] at hmain
                simp [hl, hq, except_bind_ok, except_bind_error, exOk, ← hctes, ← hmain]
      · have hempty : cs = [] := by
          cases cs with
          | nil => rfl
          | cons a as => simp at hlen
        subst hempty
        rw [if_neg hlen]
        cases hq : buildSingleQuery r.main_query
            (([] : List CTEPlan).map (fun (c : CTEPlan) => c.name)) false with
        | error e =>
            rw [hq] at hmain
            simp only [exOk] at hmain
            simp [hq, except_bind_ok, except_bind_error, exOk, List.map] at hmain ⊢
            simp [← hmain]
        | ok m =>
            rw [hq] at hmain
            simp only [exOk] at hmain
            simp [hq, except_bind_ok, except_bind_error, exOk, List.map] at hmain ⊢
            simp [← hmain]

theorem buildClauseList_of_forall2 {fs : List FilterNode} {rs : List String}
    (h : List.Forall₂ (fun f r => buildClause f = Except.ok r) fs rs) :
    buildClauseList fs = Except.ok rs := by
  induction h with
  | nil => simp [buildClauseList]
  | cons h1 _ ih => simp [buildClauseList, h1, ih, except_bind_ok]

/-- If the column check passes and the WHERE computation succeeds,
`buildSingleQuery` succeeds with the assembled text. -/
theorem buildSingleQuery_ok {p : QueryPlan} {w : String} (ns : List String) (opt : Bool)
    (hcol : (p.columns.length == 0 || p.columns.contains "*") = false)
    (hw : whereResult p.filters = Except.ok w) :
    buildSingleQuery p ns opt = Except.ok
      ("SELECT " ++ String.intercalate ", " p.columns ++ " FROM " ++ p.table ++
       " WHERE " ++ w ++ groupByText p.groupBy ++ orderByText p.orderBy ++
       limitText p.limit opt) := by
  simp only [buildSingleQuery]
  rw [if_neg (by rw [hcol]; simp), hw]

/-- Inversion: a successful `buildSingleQuery` run determines the shape of
its output text. -/
theorem buildSingleQuery_ok_inv {p : QueryPlan} {ns : List String} {opt : Bool} {s : String}
    (h : buildSingleQuery p ns opt = Except.ok s) :
    (p.columns.length == 0 || p.columns.contains "*") = false ∧
    ∃ w, whereResult p.filters = Except.ok w ∧
      s = "SELECT " ++ String.intercalate ", " p.columns ++ " FROM " ++ p.table ++
        " WHERE " ++ w ++ groupByText p.groupBy ++ orderByText p.orderBy ++
        limitText p.limit opt := by
  simp only [buildSingleQuery] at h
  by_cases hcol : (p.columns.length == 0 || p.columns.contains "*") = true
  · rw [if_pos hcol] at h
    exact absurd h (by simp)
  · rw [if_neg hcol] at h
    refine ⟨by simpa using hcol, ?_⟩
    cases hq : whereResult p.filters with
    | error e =>
        rw [hq] at h
        exact absurd h (by simp)
    | ok w =>
        rw [hq] at h
        injection h with h
        exact ⟨w, rfl, h.symm⟩

/-! ## Claims -/

/-- C5: compilation raises a `CompileError` exactly when the plan is
malformed — columns empty or containing the wildcard `*`, a leaf operator
outside the allowed set (with the error naming the operator), a BETWEEN value
that is not an array of length exactly 2, or an IN value that is not an
array — and for every other plan returns SQL text without raising. -/
theorem C5_compile_error_conditions (root : RootQueryPlan) :
    (exOk (buildQuery root) = !(malformedRoot root)) ∧
    (∀ column op value, allowedOperators.contains op = false →
      buildClause (FilterNode.leaf column op value) =
        Except.error ("Operator not allowed: " ++ op)) := by
  refine ⟨exOk_buildQuery root, ?_⟩
  intro column op value hop
  simp only [buildClause]
  rw [hop]
  simp

/-- Witness for C5 at the LIKE-filter root plan. -/
theorem C5_witness :
    exOk (buildQuery likeFilterRoot) = !(malformedRoot likeFilterRoot) ∧
    buildClause (FilterNode.leaf "id" "LIKE" (JsVal.vstr "x")) =
      Except.error "Operator not allowed: LIKE" := by
  refine ⟨(C5_compile_error_conditions likeFilterRoot).1, ?_⟩
  have h := (C5_compile_error_conditions likeFilterRoot).2 "id" "LIKE" (JsVal.vstr "x")
    (by decide)
  rw [h]
  exact congrArg Except.error (by decide)

/-- C3 counterexample: in `cteNoLimitRoot` the CTE subquery requests no
limit, and the emitted CTE SQL carries no LIMIT clause at all instead of
`LIMIT 20`. -/
theorem C3_counterexample :
    buildQuery cteNoLimitRoot =
      Except.ok ("WITH c AS (SELECT a FROM t WHERE 1=1)" ++ "\n" ++
        "SELECT b FROM u WHERE 1=1 LIMIT 20") ∧
    buildSingleQuery cteNoLimitQuery ["c"] true =
      Except.ok "SELECT a FROM t WHERE 1=1" ∧
    strContains "LIMIT" "SELECT a FROM t WHERE 1=1" = false := by
  refine ⟨?_, ?_, by decide⟩
  · simp [buildQuery, buildCTEList, buildSingleQuery, whereResult, groupByText, orderByText,
      limitText, cteNoLimitRoot, cteNoLimitQuery, except_bind_ok, DEFAULT_LIMIT, MAX_LIMIT]
    decide
  · simp [buildSingleQuery, whereResult, groupByText, orderByText, limitText, cteNoLimitQuery]
    decide

/-- C3 amended: the main query (compiled without the optional-limit flag)
always carries `LIMIT min(requested, MAX_LIMIT)`, defaulting to
`DEFAULT_LIMIT` when the limit is absent or zero; a CTE subquery (compiled
with the flag) carries `LIMIT min(requested, MAX_LIMIT)` when a positive
limit is requested and no LIMIT clause at all when the limit is absent or
zero. -/
theorem C3_limit_clause (plan : QueryPlan) (ns : List String) :
    (∀ n, plan.limit = some n → 0 < n →
       buildSingleQuery plan ns true = buildSingleQuery plan ns false ∧
       ∀ s, buildSingleQuery plan ns true = Except.ok s →
         ∃ base, s = base ++ " LIMIT " ++ toString (min n MAX_LIMIT)) ∧
    ((plan.limit = none ∨ plan.limit = some 0) →
       ∀ s, buildSingleQuery plan ns true = Except.ok s →
         buildSingleQuery plan ns false = Except.ok (s ++ " LIMIT 20")) := by
  constructor
  · intro n hn hpos
    have hne : n ≠ 0 := by omega
    have h1 : limitText plan.limit true = " LIMIT " ++ toString (min n MAX_LIMIT) := by
      simp [limitText, hn, hpos]
    have h2 : limitText plan.limit false = " LIMIT " ++ toString (min n MAX_LIMIT) := by
      simp [limitText, hn, hne]
    constructor
    · simp only [buildSingleQuery, h1, h2]
    · intro s hs
      obtain ⟨hcol, w, hw, hshape⟩ := buildSingleQuery_ok_inv hs
      refine ⟨"SELECT " ++ String.intercalate ", " plan.columns ++ " FROM " ++
        plan.table ++ " WHERE " ++ w ++ groupByText plan.groupBy ++
        orderByText plan.orderBy, ?_⟩
      rw [hshape, h1, ← String.append_assoc]
  · intro h0 s hs
    have h1 : limitText plan.limit true = "" := by
      rcases h0 with h | h <;> simp [limitText, h]
    have h2 : limitText plan.limit false = " LIMIT 20" := by
      rcases h0 with h | h <;>
        · simp [limitText, h, DEFAULT_LIMIT, MAX_LIMIT]
          decide
    obtain ⟨hcol, w, hw, hshape⟩ := buildSingleQuery_ok_inv hs
    rw [buildSingleQuery_ok ns false hcol hw, h2, hshape, h1]
    simp

/-- Witness for C3 amended at a plan with limit 60 and a plan with no limit. -/
theorem C3_witness :
    buildSingleQuery posLimitPlan [] true = buildSingleQuery posLimitPlan [] false ∧
    buildSingleQuery cteNoLimitQuery [] false =
      Except.ok ("SELECT a FROM t WHERE 1=1" ++ " LIMIT 20") := by
  constructor
  · exact ((C3_limit_clause posLimitPlan []).1 60 rfl (by decide)).1
  · refine (C3_limit_clause cteNoLimitQuery []).2 (Or.inl rfl) "SELECT a FROM t WHERE 1=1" ?_
    simp [buildSingleQuery, whereResult, groupByText, orderByText, limitText, cteNoLimitQuery]
    decide

/-- C10: two or more top-level filters are joined in order by the separator
`" AND "`, with no parentheses added around the top-level conjunction. -/
theorem C10_top_level_and (plan : QueryPlan) (ns : List String) (hasOpt : Bool)
    (fs : List FilterNode) (rs : List String)
    (hf : plan.filters = some fs) (hlen : 2 ≤ fs.length)
    (hok : List.Forall₂ (fun f r => buildClause f = Except.ok r) fs rs)
    (hcols : (plan.columns.length == 0 || plan.columns.contains "*") = false) :
    buildSingleQuery plan ns hasOpt = Except.ok
      ("SELECT " ++ String.intercalate ", " plan.columns ++ " FROM " ++ plan.table ++
       " WHERE " ++ String.intercalate " AND " rs ++
       groupByText plan.groupBy ++ orderByText plan.orderBy ++
       limitText plan.limit hasOpt) := by
  have hne : (fs.length != 0) = true := by
    cases fs with
    | nil => simp at hlen
    | cons a as => simp
  have hw : whereResult plan.filters = Except.ok (String.intercalate " AND " rs) := by
    simp [whereResult, hf, hne, buildFilterClause, buildClauseList_of_forall2 hok,
      except_bind_ok]
  exact buildSingleQuery_ok ns hasOpt hcols hw

/-- Witness for C10 at a two-filter plan. -/
theorem C10_witness :
    buildSingleQuery twoFilterPlan [] false = Except.ok
      ("SELECT " ++ String.intercalate ", " twoFilterPlan.columns ++ " FROM " ++
       twoFilterPlan.table ++ " WHERE " ++ String.intercalate " AND " ["a = 1", "b = 2"] ++
       groupByText twoFilterPlan.groupBy ++ orderByText twoFilterPlan.orderBy ++
       limitText twoFilterPlan.limit false) := by
  refine C10_top_level_and twoFilterPlan [] false _ ["a = 1", "b = 2"] rfl (by decide) ?_
    (by decide)
  refine List.Forall₂.cons ?_ (List.Forall₂.cons ?_ List.Forall₂.nil)
  · simp [buildClause, formatValue, jsToString, allowedOperators]
    decide
  · simp [buildClause, formatValue, jsToString, allowedOperators]
    decide

/-- C6: a plan whose main-query table matches the day-sharded wildcard
pattern and which has no filter constraining `_TABLE_SUFFIX` via `=`, `IN` or
`BETWEEN` is rejected by the validator, with a reason mentioning the
partition-suffix column. (The plan is assumed to satisfy the data-model
invariants on columns: non-empty and without wildcards.) -/
theorem C6_wildcard_requires_suffix (r : VRootPlan) (main : VMainQuery)
    (t : String) (cols : List String)
    (hm : r.main_query = some main) (ht : main.table = some t)
    (hcols : main.columns = some cols) (hne : cols.length ≠ 0)
    (hnw : ∀ c ∈ cols, jsTrim c ≠ "*")
    (hwild : usesWildcardDayTable t = true)
    (hnosuf : hasSuffixFilter main.filters = false) :
    validatePlan (some r) =
      { ok := false,
        reason := some "Wildcard day table requires _TABLE_SUFFIX filter" } ∧
    strContains "_TABLE_SUFFIX" "Wildcard day table requires _TABLE_SUFFIX filter" = true := by
  have htne : t ≠ "" := by
    intro h
    rw [h] at hwild
    exact absurd hwild (by decide)
  have hanyw : cols.any (fun c => jsTrim c == "*") = false := by
    rw [List.any_eq_false]
    intro c hc
    simpa using hnw c hc
  refine ⟨?_, by decide⟩
  simp only [validatePlan, hm, ht, hcols]
  rw [if_neg htne, if_neg hne, hanyw]
  simp [hwild, hnosuf]

/-- Witness for C6 at a concrete wildcard-table plan. -/
theorem C6_witness :
    validatePlan (some { main_query := some wildcardNoSuffixMain }) =
      { ok := false,
        reason := some "Wildcard day table requires _TABLE_SUFFIX filter" } ∧
    strContains "_TABLE_SUFFIX" "Wildcard day table requires _TABLE_SUFFIX filter" = true := by
  refine C6_wildcard_requires_suffix _ wildcardNoSuffixMain "githubarchive.day.2012*" ["a"]
    rfl rfl rfl (by decide) ?_ (by decide) (by decide)
  intro c hc
  simp only [List.mem_singleton] at hc
  subst hc
  decide

/-! ## Fingerprint lemmas (C9) -/

theorem jsSpaceCodes_not_alpha {x : Nat} (h1 : 65 ≤ x) (h2 : x ≤ 122) :
    jsSpaceCodes.contains x = false := by
  rw [Bool.eq_false_iff]
  intro hmem
  rw [List.contains, List.elem_eq_mem, decide_eq_true_eq] at hmem
  simp only [jsSpaceCodes, List.mem_cons, List.not_mem_nil, or_false] at hmem
  omega

theorem jsIsSpace_jsLowerChar (c : Char) :
    jsIsSpace (jsLowerChar c) = jsIsSpace c := by
  unfold jsLowerChar
  by_cases h : (65 ≤ c.toNat && c.toNat ≤ 90) = true
  · rw [if_pos h]
    simp only [Bool.and_eq_true, decide_eq_true_eq] at h
    have hv : (c.toNat + 32).isValidChar := by
      left
      omega
    have ht : ∀ n : Nat, n.isValidChar → (Char.ofNat n).toNat = n := by
      intro n hn
      simp [Char.ofNat, hn, Char.ofNatAux, Char.toNat, UInt32.toNat, BitVec.toNat_ofNatLt]
    rw [jsIsSpace, jsIsSpace, ht _ hv]
    rw [jsSpaceCodes_not_alpha (by omega) (by omega),
      jsSpaceCodes_not_alpha (by omega) (by omega)]
  · rw [if_neg h]

theorem dropWhile_map_jsLowerChar (l : List Char) :
    (l.map jsLowerChar).dropWhile jsIsSpace
      = (l.dropWhile jsIsSpace).map jsLowerChar := by
  rw [List.dropWhile_map]
  have hfun : (jsIsSpace ∘ jsLowerChar) = jsIsSpace := funext jsIsSpace_jsLowerChar
  rw [hfun]

theorem jsToLower_jsTrim (s : String) :
    jsToLower (jsTrim s) = jsTrim (jsToLower s) := by
  show String.mk (((((String.mk ((((s.toList.dropWhile jsIsSpace).reverse.dropWhile
      jsIsSpace).reverse)))).toList).map jsLowerChar)) = _
  rw [jsTrim, jsToLower]
  show String.mk _ = String.mk _
  congr 1
  show ((((s.toList.dropWhile jsIsSpace).reverse.dropWhile jsIsSpace).reverse).map jsLowerChar)
    = (((((String.mk (s.toList.map jsLowerChar)).toList).dropWhile jsIsSpace).reverse.dropWhile
        jsIsSpace).reverse)
  show _ = ((((s.toList.map jsLowerChar).dropWhile jsIsSpace).reverse.dropWhile
        jsIsSpace).reverse)
  rw [dropWhile_map_jsLowerChar, ← List.map_reverse, dropWhile_map_jsLowerChar,
    ← List.map_reverse]

theorem hexWord8_length (n : Nat) : (hexWord8 n).length = 8 := rfl

theorem sha256Hex_length (s : String) : (sha256Hex s).length = 64 := by
  simp only [sha256Hex, Hash8.toHex]
  show (String.mk _).length = 64
  rw [show ∀ L : List Char, (String.mk L).length = L.length from fun _ => rfl]
  simp [List.length_append, hexWord8_length]

/-- C9: the prompt fingerprint is the hex SHA-256 of the trimmed, lowercased
prompt; the SQL fingerprint is the hex SHA-256 of the SQL unmodified; both
are fixed-length (64 hex characters), and determinism is immediate since
both are functions of their input. -/
theorem C9_fingerprints (text sql : String) :
    calculatePromptHash text = sha256Hex (jsTrim (jsToLower text)) ∧
    calculateSqlHash sql = sha256Hex sql ∧
    (calculatePromptHash text).length = 64 ∧
    (calculateSqlHash sql).length = 64 := by
  refine ⟨?_, rfl, ?_, ?_⟩
  · rw [calculatePromptHash, jsToLower_jsTrim]
  · exact sha256Hex_length _
  · exact sha256Hex_length _

theorem countKey_cons_eq {A : Type} (p : String × A) (rest : List (String × A))
    (k : String) (h : (p.1 == k) = true) :
    countKey (p :: rest) k = countKey rest k + 1 := by
  simp [countKey, List.filter_cons, h]

theorem countKey_cons_ne {A : Type} (p : String × A) (rest : List (String × A))
    (k : String) (h : (p.1 == k) = false) :
    countKey (p :: rest) k = countKey rest k := by
  simp [countKey, List.filter_cons, h]

theorem getAssoc_setAssoc {A : Type} (m : List (String × A)) (k : String) (v : A) :
    getAssocGen (setAssocGen m k v) k = some v := by
  induction m with
  | nil => simp [setAssocGen, getAssocGen]
  | cons p rest ih =>
      obtain ⟨a, b⟩ := p
      by_cases h : (a == k) = true
      · simp [setAssocGen, getAssocGen, h]
      · rw [show setAssocGen ((a, b) :: rest) k v = (a, b) :: setAssocGen rest k v from
          by simp [setAssocGen, h]]
        rw [show getAssocGen ((a, b) :: setAssocGen rest k v) k
            = getAssocGen (setAssocGen rest k v) k from by simp [getAssocGen, h]]
        exact ih

theorem countKey_setAssoc {A : Type} (m : List (String × A)) (k : String) (v : A) :
    countKey (setAssocGen m k v) k = max (countKey m k) 1 := by
  induction m with
  | nil => simp [setAssocGen, countKey]
  | cons p rest ih =>
      obtain ⟨a, b⟩ := p
      by_cases h : (a == k) = true
      · rw [show setAssocGen ((a, b) :: rest) k v = (k, v) :: rest from
          by simp [setAssocGen, h]]
        rw [countKey_cons_eq _ _ _ (by simp), countKey_cons_eq _ _ _ h]
        omega
      · rw [Bool.not_eq_true] at h
        rw [show setAssocGen ((a, b) :: rest) k v = (a, b) :: setAssocGen rest k v from
          by simp [setAssocGen, h]]
        rw [countKey_cons_ne _ _ _ h, countKey_cons_ne _ _ _ h, ih]

/-- `setupConnection` never ends a channel. -/
theorem setupConnection_closed (st : SSEState) (k : String) (c : Nat) (ms : JobStateMsg) :
    (setupConnection st k c ms).closed = st.closed := by
  simp only [setupConnection, writeEventAndMaybeClose]
  by_cases h : (ms.status == "completed" || ms.status == "failed") = true
  · rw [if_pos h]
  · rw [if_neg h]

/-- C4 counterexample: after a second `setupConnection` for the same job key,
the registry points at the new channel but the previously registered channel
has not been closed. -/
theorem C4_counterexample :
    getAssocGen (setupConnection
      (setupConnection {} "job-1" 1 { jobId := "job-1", status := "processing" })
      "job-1" 2 { jobId := "job-1", status := "processing" }).active "job-1" = some 2 ∧
    (setupConnection
      (setupConnection {} "job-1" 1 { jobId := "job-1", status := "processing" })
      "job-1" 2 { jobId := "job-1", status := "processing" }).closed = [] := by
  decide

/-- C4 amended: a later `setupConnection` for the same job key replaces the
registered channel — the registry afterwards maps the key to the new channel
and keeps at most one binding per key — but it does not close the previously
registered channel (`closed` is untouched; explicit closure is the caller's
responsibility). -/
theorem C4_replace_no_close (st : SSEState) (k : String) (c : Nat) (ms : JobStateMsg)
    (hone : countKey st.active k ≤ 1) :
    getAssocGen (setupConnection st k c ms).active k = some c ∧
    (setupConnection st k c ms).closed = st.closed ∧
    countKey (setupConnection st k c ms).active k = 1 := by
  have hact : (setupConnection st k c ms).active = setAssocGen st.active k c := by
    simp only [setupConnection, writeEventAndMaybeClose]
    by_cases h : (ms.status == "completed" || ms.status == "failed") = true
    · rw [if_pos h]
    · rw [if_neg h]
  refine ⟨?_, setupConnection_closed st k c ms, ?_⟩
  · rw [hact]
    exact getAssoc_setAssoc st.active k c
  · rw [hact, countKey_setAssoc]
    omega

/-- Witness for C4 amended at a concrete replacement. -/
theorem C4_witness :
    getAssocGen (setupConnection
      { active := [("job-1", 1)] } "job-1" 2
      { jobId := "job-1", status := "processing" }).active "job-1" = some 2 ∧
    (setupConnection { active := [("job-1", 1)] } "job-1" 2
      { jobId := "job-1", status := "processing" }).closed = [] ∧
    countKey (setupConnection { active := [("job-1", 1)] } "job-1" 2
      { jobId := "job-1", status := "processing" }).active "job-1" = 1 := by
  exact C4_replace_no_close { active := [("job-1", 1)] } "job-1" 2
    { jobId := "job-1", status := "processing" } (by decide)

/-- C7: the failure handler records exactly the sanitized reason: the error's
own message for a designated user-facing error or a plain string, and a fixed
generic message — independent of the internal message and stack — for
everything else. -/
theorem C7_sanitized_failure (job : BullJob) (error : JsError) :
    (onQueueFailed job error).failedReason = some (toSafeFailedReason error) ∧
    (∀ m c, toSafeFailedReason (JsError.userFacing m c) = m) ∧
    (∀ s, toSafeFailedReason (JsError.plainString s) = s) ∧
    (∀ m st m2 st2, toSafeFailedReason (JsError.internal m st) =
        "An unexpected error occurred. Please try again later." ∧
      toSafeFailedReason (JsError.internal m st) =
        toSafeFailedReason (JsError.internal m2 st2)) :=
  ⟨rfl, fun _ _ => rfl, fun _ => rfl, fun _ _ _ _ => ⟨rfl, rfl⟩⟩

/-- C8: the derived coarse status is a pure function of the timestamps:
pending with no processing-start, processing with a start but no finish,
completed with a finish and no failure reason, failed with a finish and a
recorded reason. (Timestamps, when present, are nonzero; a recorded reason is
non-empty; a finish timestamp only exists once processing has started.) -/
theorem C8_status_derivation (job : BullJob)
    (hp0 : job.processedOn ≠ some 0) (hf0 : job.finishedOn ≠ some 0)
    (hr0 : job.failedReason ≠ some "")
    (hwf : job.processedOn = none → job.finishedOn = none) :
    (job.processedOn = none → getJobStatus job = "pending") ∧
    (job.processedOn ≠ none → job.finishedOn = none → getJobStatus job = "processing") ∧
    (job.finishedOn ≠ none → job.failedReason = none → getJobStatus job = "completed") ∧
    (job.finishedOn ≠ none → job.failedReason ≠ none → getJobStatus job = "failed") := by
  refine ⟨?_, ?_, ?_, ?_⟩
  · intro hp
    have hf := hwf hp
    simp [getJobStatus, hp, hf, truthyNat]
  · intro hp hf
    match hpe : job.processedOn with
    | none => exact absurd hpe hp
    | some p =>
        have hpz : p ≠ 0 := by
          intro h
          rw [h] at hpe
          exact hp0 hpe
        simp [getJobStatus, hpe, hf, truthyNat, hpz]
  · intro hf hr
    match hfe : job.finishedOn with
    | none => exact absurd hfe hf
    | some n =>
        have hnz : n ≠ 0 := by
          intro h
          rw [h] at hfe
          exact hf0 hfe
        simp [getJobStatus, hfe, hr, truthyNat, truthyStr, hnz]
  · intro hf hr
    match hfe : job.finishedOn with
    | none => exact absurd hfe hf
    | some n =>
        have hnz : n ≠ 0 := by
          intro h
          rw [h] at hfe
          exact hf0 hfe
        match hre : job.failedReason with
        | none => exact absurd hre hr
        | some r =>
            have hrz : r ≠ "" := by
              intro h
              rw [h] at hre
              exact hr0 hre
            simp [getJobStatus, hfe, hre, truthyNat, truthyStr, hnz, hrz]

/-- Witness for C8 at the four concrete timestamp shapes. -/
theorem C8_witness :
    getJobStatus {} = "pending" ∧
    getJobStatus { processedOn := some 5 } = "processing" ∧
    getJobStatus { processedOn := some 5, finishedOn := some 9 } = "completed" ∧
    getJobStatus { processedOn := some 5, finishedOn := some 9, failedReason := some "boom" }
      = "failed" := by
  refine ⟨?_, ?_, ?_, ?_⟩
  · exact (C8_status_derivation {} (by simp) (by simp) (by simp) (by simp)).1 rfl
  · exact (C8_status_derivation { processedOn := some 5 } (by simp) (by simp) (by simp)
      (by simp)).2.1 (by simp) rfl
  · exact (C8_status_derivation { processedOn := some 5, finishedOn := some 9 } (by simp)
      (by simp) (by simp) (by simp)).2.2.1 (by simp) rfl
  · exact (C8_status_derivation
      { processedOn := some 5, finishedOn := some 9, failedReason := some "boom" }
      (by simp) (by simp) (by simp) (by simp)).2.2.2 (by simp) (by simp)

/-- C1: when the fingerprint of the compiled SQL already maps to a cache
entry with a truthy question id and result, the handler returns the cached
result and chart config, performs no executor call, deletes the duplicate
question record, re-points the prompt-fingerprint cache at the original
job/question, leaves the SQL cache unchanged, and marks the job
deduplicated — so the paid executor runs at most once per distinct SQL. -/
theorem C1_sql_cache_hit (st : PipelineState) (jobId questionId userQuestion : String)
    (resp : PlannerResponse) (executor : String → JsVal) (chart : JsVal)
    (sql title : String) (sqlInfo : SqlCacheEntry)
    (hgen : generateQueryPlan resp = Except.ok (sql, title))
    (hlook : getAssocGen st.sqlCache (calculateSqlHash sql) = some sqlInfo)
    (hqid : truthyStr sqlInfo.questionId = true)
    (hres : truthyOptVal sqlInfo.result = true) :
    processQuestionJob st jobId questionId userQuestion resp executor chart =
      ({ st with
          questions := deleteQuestion st.questions questionId,
          promptCache := setAssocGen st.promptCache (calculatePromptHash userQuestion)
            ⟨sqlInfo.jobId, sqlInfo.questionId⟩ },
        Except.ok (sqlInfo.result, sqlInfo.chartConfig), true) ∧
    (processQuestionJob st jobId questionId userQuestion resp executor chart).1.executorCalls
      = st.executorCalls ∧
    (processQuestionJob st jobId questionId userQuestion resp executor chart).1.sqlCache
      = st.sqlCache := by
  have hmain : processQuestionJob st jobId questionId userQuestion resp executor chart =
      ({ st with
          questions := deleteQuestion st.questions questionId,
          promptCache := setAssocGen st.promptCache (calculatePromptHash userQuestion)
            ⟨sqlInfo.jobId, sqlInfo.questionId⟩ },
        Except.ok (sqlInfo.result, sqlInfo.chartConfig), true) := by
    simp only [processQuestionJob, hgen, hlook]
    rw [if_pos (by rw [hqid, hres]; rfl)]
  refine ⟨hmain, ?_, ?_⟩ <;> rw [hmain]

/-- C2 counterexample: `scheduleQuestionJob` enqueues a job for a fresh
prompt without consulting the planner or validator, and when the handler
later abstains, the rejection is recorded as a job failure with the
abstention message — not returned synchronously before queueing. -/
theorem C2_counterexample :
    (scheduleQuestionJob {} "bad prompt" none "q1" "b1").1.jobs =
      [{ id := "b1", customId := "question-processing:q1", questionId := "q1",
         userQuestion := "bad prompt" }] ∧
    (processQuestionJob (scheduleQuestionJob {} "bad prompt" none "q1" "b1").1
        "b1" "q1" "bad prompt" abstainingResp (fun _ => JsVal.vstr "rows") JsVal.vnull).2.1
      = Except.error (JsError.userFacing abstentionMessage none) ∧
    (onQueueFailed {} (JsError.userFacing abstentionMessage none)).failedReason
      = some abstentionMessage := by
  refine ⟨rfl, rfl, rfl⟩

/-- C2 amended: the abstention checks (abstain flag, fidelity below 0.7,
validator rejection) run inside the job handler, after the job was queued:
an abstaining response makes the handler throw a `UserFacingError` before
any state change or executor call, and the queue's failure handler records
that message as the job's failed reason. -/
theorem C2_abstention_recorded_as_job_failure (st : PipelineState)
    (jobId questionId userQuestion : String) (resp : PlannerResponse)
    (executor : String → JsVal) (chart : JsVal) (job : BullJob)
    (habst : shouldAbstain resp = true) :
    generateQueryPlan resp = Except.error (JsError.userFacing abstentionMessage none) ∧
    processQuestionJob st jobId questionId userQuestion resp executor chart =
      (st, Except.error (JsError.userFacing abstentionMessage none), false) ∧
    (onQueueFailed job (JsError.userFacing abstentionMessage none)).failedReason
      = some abstentionMessage := by
  have hgen : generateQueryPlan resp =
      Except.error (JsError.userFacing abstentionMessage none) := by
    simp [generateQueryPlan, habst]
  refine ⟨hgen, ?_, rfl⟩
  simp [processQuestionJob, hgen]

/-- Witness for C2 amended at the explicitly abstaining response. -/
theorem C2_witness :
    generateQueryPlan abstainingResp =
      Except.error (JsError.userFacing abstentionMessage none) ∧
    processQuestionJob {} "b1" "q1" "p" abstainingResp (fun _ => JsVal.vnull) JsVal.vnull =
      ({}, Except.error (JsError.userFacing abstentionMessage none), false) ∧
    (onQueueFailed {} (JsError.userFacing abstentionMessage none)).failedReason
      = some abstentionMessage :=
  C2_abstention_recorded_as_job_failure {} "b1" "q1" "p" abstainingResp
    (fun _ => JsVal.vnull) JsVal.vnull {} rfl

/-- Witness for C1 at a concrete cached state. -/
theorem C1_witness :
    processQuestionJob hitState "b1" "q1" "prompt" okResp (fun _ => JsVal.vstr "live")
        JsVal.vnull =
      ({ hitState with
          questions := deleteQuestion hitState.questions "q1",
          promptCache := setAssocGen hitState.promptCache (calculatePromptHash "prompt")
            ⟨some "j0", some "q0"⟩ },
        Except.ok (some (JsVal.vstr "rows"), some (JsVal.vstr "cfg")), true) := by
  have hbq : buildQuery okResp.cplan = Except.ok okSql := by
    simp [okResp, okSql, buildQuery, buildCTEList, buildSingleQuery, whereResult,
      groupByText, orderByText, limitText, except_bind_ok, DEFAULT_LIMIT, MAX_LIMIT]
    decide
  have hfid : ¬ ((1 : ℚ) < 7 / 10) := by norm_num
  have hval : (validatePlan okResp.vplan).ok = true := by decide
  have habst : shouldAbstain okResp = false := by
    simp only [shouldAbstain, hval]
    rw [show okResp.abstain = false from rfl, show okResp.fidelity = some 1 from rfl]
    rw [decide_eq_false hfid]
    rfl
  have hgen : generateQueryPlan okResp = Except.ok (okSql, "T") := by
    simp only [generateQueryPlan, habst, hbq]
    rfl
  have hlook : getAssocGen hitState.sqlCache (calculateSqlHash okSql) = some okSqlEntry := by
    simp [hitState, getAssocGen]
  have h := C1_sql_cache_hit hitState "b1" "q1" "prompt" okResp
    (fun _ => JsVal.vstr "live") JsVal.vnull okSql "T" okSqlEntry hgen hlook rfl rfl
  exact h.1

end Trends
